import Mathlib

/-!
# ProductManager: the product routes and the client components

A shallow embedding of the four handlers of the product router
(`server/routes/products.js`: list, create, update, delete) over a document
collection, together with the part of Mongoose they call (`find`/`sort`,
`create`, `findOne`, `findByIdAndUpdate`, `findByIdAndDelete`), and of the
client logic of `ProductList.jsx` (search, sorting, statistics) and
`Signup.jsx` (validation of the form).

Conventions of the embedding:

* an `ObjectId` is an abstract identifier (a natural number); `req.user._id`
  is one; the route parameter `req.params.id` is any string, which Mongoose
  casts to an identifier for the query (`castId`), throwing when the string is
  not a well-formed identifier;
* `req.body` is a flat JSON object: an association list from keys to JSON
  scalars; `req.body.name` is `body.field "name"`, which is `undefined` when
  the key is absent; numbers are rationals;
* the schema of `models/Product.js` is a parameter (`ProductSchema`);
* a handler is a function from the collection and the request to the response
  and the collection afterwards; the handler runs after `protect`, with
  `req.user._id` as its `user` argument; an error thrown by a Mongoose call is
  the `Except.error` the `catch` block turns into a 500 response;
* the identifier and the creation time a new document gets are arguments of
  `create` (they are assigned by the driver and the clock);
* `router.getTry`, `router.postTry`, `router.putTry` and `router.deleteTry` are
  the same handlers with a possible failure of each store call; without a
  failure they are the handlers above (`try_without_failure`).
-/

namespace ProductManager

/-- An identifier of a document (`_id` of a product, `_id` of a user). -/
abbrev ObjectId := Nat

/-- A JavaScript value read from `req.body`: a JSON scalar, or `undefined`
(what reading an absent key gives; a parsed JSON body holds none). -/
inductive JVal where
  | undefined
  | null
  | bool (b : Bool)
  | num (q : ℚ)
  | str (s : String)
deriving DecidableEq

/-- JavaScript truthiness: `undefined`, `null`, `false`, `0` and `""` are
falsy, everything else is truthy. -/
def truthy : JVal → Bool
  | .undefined => false
  | .null => false
  | .bool b => b
  | .num q => decide (q ≠ 0)
  | .str s => decide (s ≠ "")

/-- The parsed request body. -/
abbrev Body := List (String × JVal)

/-- Reading a member: `req.body.key`, `undefined` when the key is absent. -/
def Body.field (body : Body) (key : String) : JVal :=
  (body.lookup key).getD .undefined

/-- A stored product document. -/
structure Product where
  _id : ObjectId
  name : String
  description : String
  price : ℚ
  category : String
  user : ObjectId
  createdAt : Nat
deriving DecidableEq

/-- The product collection, in natural (insertion) order. -/
abbrev Store := List Product

/-- The schema of `models/Product.js`, which the routes import and which is
not among the sources: it is a parameter of the embedding. For every path it
gives what Mongoose does with a value offered for that path (casting, setters
and validators together): the stored value, or the message of the error
thrown. The two flags say whether the path is declared `immutable`. -/
structure ProductSchema where
  id : JVal → Except String ObjectId
  name : JVal → Except String String
  description : JVal → Except String String
  price : JVal → Except String ℚ
  category : JVal → Except String String
  user : JVal → Except String ObjectId
  createdAt : JVal → Except String Nat
  userImmutable : Bool
  createdAtImmutable : Bool

/-- The `data` member of a response body. -/
inductive Data where
  | absent
  | null
  | product (p : Product)
  | products (ps : List Product)
deriving DecidableEq

/-- What a handler sends: the HTTP status and the JSON body
`{success, message, data}`. -/
structure Response where
  status : Nat
  success : Bool
  message : Option String
  data : Data
deriving DecidableEq

/-! ## The Mongoose operations the routes call -/

/-- `Product.find({ user })`. -/
def Product.find (st : Store) (user : ObjectId) : List Product :=
  st.filter (fun p => p.user == user)

/-- The order of `.sort({ createdAt: -1 })`: newest first. -/
def newerFirst (a b : Product) : Prop := b.createdAt ≤ a.createdAt

instance : DecidableRel newerFirst :=
  fun a b => inferInstanceAs (Decidable (b.createdAt ≤ a.createdAt))

instance : IsTotal Product newerFirst := ⟨fun a b => Nat.le_total b.createdAt a.createdAt⟩

instance : IsTrans Product newerFirst := ⟨fun _ _ _ hab hbc => Nat.le_trans hbc hab⟩

/-- `.sort({ createdAt: -1 })`. -/
def sortCreatedAtDesc (ps : List Product) : List Product :=
  ps.insertionSort newerFirst

/-- `Product.findOne({ _id, user })`. -/
def Product.findOne (st : Store) (id user : ObjectId) : Option Product :=
  st.find? (fun p => p._id == id && p.user == user)

/-- `Product.findById(id)`, the lookup inside `findByIdAndUpdate` and
`findByIdAndDelete`: by identifier alone. -/
def Product.findById (st : Store) (id : ObjectId) : Option Product :=
  st.find? (fun p => p._id == id)

/-- `Product.create({ name, description, price, category, user })`: every
offered value goes through the schema, the document gets its identifier and
its creation time, and is inserted; an identifier already in the collection is
a duplicate-key error. -/
def Product.create (S : ProductSchema) (st : Store) (name description price category : JVal)
    (user : ObjectId) (oid : ObjectId) (now : Nat) : Except String (Product × Store) := do
  let n ← S.name name
  let d ← S.description description
  let pr ← S.price price
  let c ← S.category category
  if st.any (fun p => p._id == oid) then
    throw "E11000 duplicate key error"
  else
    let p : Product :=
      { _id := oid, name := n, description := d, price := pr, category := c,
        user := user, createdAt := now }
    pure (p, st ++ [p])

/-- The value a path has after an update: unchanged when the key is not in the
body or the path is immutable, the schema's result for the offered value
otherwise. -/
def setPath {α : Type} (body : Body) (key : String) (immutable : Bool)
    (cast : JVal → Except String α) (old : α) : Except String α :=
  match body.lookup key with
  | none => pure old
  | some v => if immutable then pure old else cast v

/-- The check the database makes on `_id` in an update: it may be given only
with its present value. -/
def checkId (S : ProductSchema) (body : Body) (p : Product) : Except String Unit :=
  match body.lookup "_id" with
  | none => pure ()
  | some v => do
    let i ← S.id v
    if i = p._id then pure ()
    else throw "Performing an update on the path _id would modify the immutable field _id"

/-- The update document `req.body` applied to one product (`$set` of every
schema path that is a key of the body; other keys are dropped). -/
def applyUpdate (S : ProductSchema) (body : Body) (p : Product) : Except String Product := do
  checkId S body p
  let n ← setPath body "name" false S.name p.name
  let d ← setPath body "description" false S.description p.description
  let pr ← setPath body "price" false S.price p.price
  let c ← setPath body "category" false S.category p.category
  let u ← setPath body "user" S.userImmutable S.user p.user
  let t ← setPath body "createdAt" S.createdAtImmutable S.createdAt p.createdAt
  pure { _id := p._id, name := n, description := d, price := pr, category := c,
         user := u, createdAt := t }

/-- Replace the first document with identifier `id` by `q`. -/
def replaceById (id : ObjectId) (q : Product) : Store → Store
  | [] => []
  | p :: ps => if p._id == id then q :: ps else p :: replaceById id q ps

/-- `Product.findByIdAndUpdate(id, body, { new: true, runValidators: true })`:
the document with that identifier (whoever owns it) is updated with the body
and returned as updated; `null` when there is none. -/
def Product.findByIdAndUpdate (S : ProductSchema) (st : Store) (id : ObjectId) (body : Body) :
    Except String (Option Product × Store) :=
  match Product.findById st id with
  | none => pure (none, st)
  | some p => do
    let q ← applyUpdate S body p
    pure (some q, replaceById id q st)

/-- Remove the first document with identifier `id`. -/
def removeById (id : ObjectId) (st : Store) : Store :=
  st.eraseP (fun p => p._id == id)

/-- `Product.findByIdAndDelete(id)`: by identifier alone. -/
def Product.findByIdAndDelete (st : Store) (id : ObjectId) : Option Product × Store :=
  (Product.findById st id, removeById id st)

/-! ## The handlers -/

/-- The 500 response of a `catch` block: `message` is `error.message`. -/
def serverError (msg : String) : Response :=
  { status := 500, success := false, message := some msg, data := .absent }

/-- The 404 response of update and delete. -/
def notFound : Response :=
  { status := 404, success := false, message := some "Product not found", data := .absent }

/-- `router.get('/')`: get all products of the logged-in user. -/
def router.get (st : Store) (user : ObjectId) : Response × Store :=
  ({ status := 200, success := true, message := none,
     data := .products (sortCreatedAtDesc (Product.find st user)) }, st)

/-- `router.post('/')`: create a new product. -/
def router.post (S : ProductSchema) (st : Store) (user : ObjectId) (body : Body)
    (oid : ObjectId) (now : Nat) : Response × Store :=
  let name := body.field "name"
  let description := body.field "description"
  let price := body.field "price"
  let category := body.field "category"
  if !truthy name || !truthy description || !truthy price || !truthy category then
    ({ status := 400, success := false, message := some "Please provide all product details",
       data := .absent }, st)
  else
    match Product.create S st name description price category user oid now with
    | .ok (product, st') =>
      ({ status := 201, success := true, message := some "Product created successfully",
         data := .product product }, st')
    | .error e => (serverError e, st)

/-- The cast of the route parameter `req.params.id`, any string, that Mongoose
makes for a query on `_id`: the schema's `_id` path applied to the string. For
a string that is not a well-formed identifier the query throws the cast
error. -/
def castId (S : ProductSchema) (idParam : String) : Except String ObjectId :=
  S.id (.str idParam)

/-- `router.put('/:id')`: update a product. `findOne` casts `req.params.id`
first and throws when the cast fails, which the `catch` answers with 500;
`findByIdAndUpdate` is given the same string and casts it to the same
identifier. -/
def router.put (S : ProductSchema) (st : Store) (user : ObjectId) (idParam : String)
    (body : Body) : Response × Store :=
  match castId S idParam with
  | .error e => (serverError e, st)
  | .ok id =>
    match Product.findOne st id user with
    | none => (notFound, st)
    | some _ =>
      match Product.findByIdAndUpdate S st id body with
      | .ok (updatedProduct, st') =>
        ({ status := 200, success := true, message := some "Product updated successfully",
           data := match updatedProduct with
             | some p => .product p
             | none => .null }, st')
      | .error e => (serverError e, st)

/-- `router.delete('/:id')`: delete a product. `findOne` casts `req.params.id`
first and throws when the cast fails, which the `catch` answers with 500;
`findByIdAndDelete` is given the same string and casts it to the same
identifier. -/
def router.delete (S : ProductSchema) (st : Store) (user : ObjectId) (idParam : String) :
    Response × Store :=
  match castId S idParam with
  | .error e => (serverError e, st)
  | .ok id =>
    match Product.findOne st id user with
    | none => (notFound, st)
    | some _ =>
      ({ status := 200, success := true, message := some "Product deleted successfully",
         data := .absent }, (Product.findByIdAndDelete st id).2)

/-! ## The API as a transition system -/

/-- A request of an authenticated user to the product API. -/
inductive Request where
  | list (user : ObjectId)
  | create (user : ObjectId) (body : Body) (oid : ObjectId) (now : Nat)
  | update (user : ObjectId) (idParam : String) (body : Body)
  | delete (user : ObjectId) (idParam : String)

/-- One request served. -/
def serve (S : ProductSchema) (st : Store) : Request → Response × Store
  | .list user => router.get st user
  | .create user body oid now => router.post S st user body oid now
  | .update user idParam body => router.put S st user idParam body
  | .delete user idParam => router.delete S st user idParam

/-- The collection after a sequence of requests, from the empty collection. -/
def run (S : ProductSchema) (reqs : List Request) : Store :=
  reqs.foldl (fun st r => (serve S st r).2) []

/-- The collections reachable through the API. -/
def Reachable (S : ProductSchema) (st : Store) : Prop :=
  ∃ reqs, run S reqs = st

/-- Identifiers are unique in the collection. -/
def UniqueIds (st : Store) : Prop :=
  (st.map (fun p => p._id)).Nodup

instance (st : Store) : Decidable (UniqueIds st) :=
  inferInstanceAs (Decidable (List.Nodup (st.map (fun p : Product => p._id))))

/-! ## Two instances of the schema -/

/-- A text path that is required and takes strings only. -/
def textPath (path : String) : JVal → Except String String
  | .str s => if s = "" then .error ("Path " ++ path ++ " is required.") else .ok s
  | .undefined => .error ("Path " ++ path ++ " is required.")
  | .null => .error ("Path " ++ path ++ " is required.")
  | _ => .error ("Cast to String failed at path " ++ path)

/-- A number path that is required, with an optional `min` validator. -/
def numberPath (path : String) (min : Option ℚ) : JVal → Except String ℚ
  | .num q =>
    match min with
    | some m => if q < m then .error ("Path " ++ path ++ " is less than minimum allowed value.") else .ok q
    | none => .ok q
  | .undefined => .error ("Path " ++ path ++ " is required.")
  | .null => .error ("Path " ++ path ++ " is required.")
  | _ => .error ("Cast to Number failed at path " ++ path)

/-- Reading an identifier from its digits. -/
def readDigits : List Char → Nat → Option Nat
  | [], acc => some acc
  | c :: cs, acc => if c.isDigit then readDigits cs (acc * 10 + (c.toNat - 48)) else none

/-- An identifier path: the JSON form of an identifier is the string of its
digits. -/
def objectIdPath (path : String) : JVal → Except String ObjectId
  | .str s =>
    match s.data with
    | [] => .error ("Cast to ObjectId failed at path " ++ path)
    | c :: cs =>
      match readDigits (c :: cs) 0 with
      | some n => .ok n
      | none => .error ("Cast to ObjectId failed at path " ++ path)
  | _ => .error ("Cast to ObjectId failed at path " ++ path)

/-- A date path: the JSON form of a date is its number of milliseconds. -/
def datePath (path : String) : JVal → Except String Nat
  | .num q => if q.den = 1 ∧ 0 ≤ q.num then .ok q.num.toNat else .error ("Cast to date failed at path " ++ path)
  | _ => .error ("Cast to date failed at path " ++ path)

/-- A schema with the attributes of a product and no further declaration: no
bound on the price, no immutable path. -/
def plainSchema : ProductSchema :=
  { id := objectIdPath "_id"
    name := textPath "name"
    description := textPath "description"
    price := numberPath "price" none
    category := textPath "category"
    user := objectIdPath "user"
    createdAt := datePath "createdAt"
    userImmutable := false
    createdAtImmutable := false }

/-- The same schema with `min: 0` on the price. -/
def minPriceSchema : ProductSchema :=
  { plainSchema with price := numberPath "price" (some 0) }

/-! ## Sample data -/

/-- The body `{name: "Widget", description: "A widget", category: "Tools",
price: 19.99}`. -/
def widget : Body :=
  [("name", .str "Widget"), ("description", .str "A widget"), ("category", .str "Tools"),
   ("price", .num (mkRat 1999 100))]

/-- The widget with a price. -/
def widgetPriced (q : ℚ) : Body :=
  [("name", .str "Widget"), ("description", .str "A widget"), ("category", .str "Tools"),
   ("price", .num q)]

/-- A product of user 2, with identifier 3, created at time 500. -/
def otherProduct : Product :=
  { _id := 3, name := "Gadget", description := "A gadget", price := 5,
    category := "Toys", user := 2, createdAt := 500 }

/-- The widget as stored for user 1 with identifier 7 at time 1000. -/
def storedWidget : Product :=
  { _id := 7, name := "Widget", description := "A widget", price := mkRat 1999 100,
    category := "Tools", user := 1, createdAt := 1000 }

/-! ## The handlers with failing store calls -/

/-- An awaited store call under a storage failure: when the store fails the
call throws an error with the message of the failure and writes nothing,
otherwise it gives its result. -/
def storeCall {α : Type} (failure : Option String) (result : Except String α) :
    Except String α :=
  match failure with
  | some msg => .error msg
  | none => result

/-- `router.get('/')` with its `try`/`catch`; `failure` is the failure of
`Product.find(...).sort(...)`, if any. -/
def router.getTry (failure : Option String) (st : Store) (user : ObjectId) : Response × Store :=
  match storeCall failure (.ok (sortCreatedAtDesc (Product.find st user))) with
  | .ok products =>
    ({ status := 200, success := true, message := none, data := .products products }, st)
  | .error e => (serverError e, st)

/-- `router.post('/')` with its `try`/`catch`; `failure` is the failure of
`Product.create`, if any. -/
def router.postTry (S : ProductSchema) (failure : Option String) (st : Store) (user : ObjectId)
    (body : Body) (oid : ObjectId) (now : Nat) : Response × Store :=
  let name := body.field "name"
  let description := body.field "description"
  let price := body.field "price"
  let category := body.field "category"
  if !truthy name || !truthy description || !truthy price || !truthy category then
    ({ status := 400, success := false, message := some "Please provide all product details",
       data := .absent }, st)
  else
    match storeCall failure (Product.create S st name description price category user oid now) with
    | .ok (product, st') =>
      ({ status := 201, success := true, message := some "Product created successfully",
         data := .product product }, st')
    | .error e => (serverError e, st)

/-- `router.put('/:id')` with its `try`/`catch`; `failure1` is the failure of
`Product.findOne`, `failure2` that of `Product.findByIdAndUpdate`, if any. The
cast of `req.params.id` comes before the store is called. -/
def router.putTry (S : ProductSchema) (failure1 failure2 : Option String) (st : Store)
    (user : ObjectId) (idParam : String) (body : Body) : Response × Store :=
  match castId S idParam with
  | .error e => (serverError e, st)
  | .ok id =>
    match storeCall failure1 (.ok (Product.findOne st id user)) with
    | .error e => (serverError e, st)
    | .ok none => (notFound, st)
    | .ok (some _) =>
      match storeCall failure2 (Product.findByIdAndUpdate S st id body) with
      | .ok (updatedProduct, st') =>
        ({ status := 200, success := true, message := some "Product updated successfully",
           data := match updatedProduct with
             | some p => .product p
             | none => .null }, st')
      | .error e => (serverError e, st)

/-- `router.delete('/:id')` with its `try`/`catch`; `failure1` is the failure
of `Product.findOne`, `failure2` that of `Product.findByIdAndDelete`, if
any. The cast of `req.params.id` comes before the store is called. -/
def router.deleteTry (S : ProductSchema) (failure1 failure2 : Option String) (st : Store)
    (user : ObjectId) (idParam : String) : Response × Store :=
  match castId S idParam with
  | .error e => (serverError e, st)
  | .ok id =>
    match storeCall failure1 (.ok (Product.findOne st id user)) with
    | .error e => (serverError e, st)
    | .ok none => (notFound, st)
    | .ok (some _) =>
      match storeCall failure2 (.ok (Product.findByIdAndDelete st id)) with
      | .ok deleted =>
        ({ status := 200, success := true, message := some "Product deleted successfully",
           data := .absent }, deleted.2)
      | .error e => (serverError e, st)

/-! ## The single conditional write of the design notes -/

/-- The filter `{ _id: id, user: requester }`: the ownership predicate. -/
def ownedBy (user id : ObjectId) (p : Product) : Bool :=
  p._id == id && p.user == user

/-- Replace the first document that satisfies `f` by `q`. -/
def replaceFirst (f : Product → Bool) (q : Product) : Store → Store
  | [] => []
  | p :: ps => if f p then q :: ps else p :: replaceFirst f q ps

/-- Update as the spec words it (sections 5 and 9): one conditional write that
matches on owner = requester and id = target and then mutates the matched
document; not found when nothing matches. -/
def atomicUpdate (S : ProductSchema) (st : Store) (user id : ObjectId) (body : Body) :
    Response × Store :=
  match st.find? (ownedBy user id) with
  | none => (notFound, st)
  | some p =>
    match applyUpdate S body p with
    | .ok q =>
      ({ status := 200, success := true, message := some "Product updated successfully",
         data := .product q }, replaceFirst (ownedBy user id) q st)
    | .error e => (serverError e, st)

/-- Delete as the spec words it (sections 5 and 9): one conditional write that
matches on owner = requester and id = target and then removes the matched
document; not found when nothing matches. -/
def atomicDelete (st : Store) (user id : ObjectId) : Response × Store :=
  match st.find? (ownedBy user id) with
  | none => (notFound, st)
  | some _ =>
    ({ status := 200, success := true, message := some "Product deleted successfully",
       data := .absent }, st.eraseP (ownedBy user id))

/-! ## The client: `ProductList.jsx`

The component holds the products fetched from the API. Strings are read by
their characters; what the JavaScript runtime supplies (`toLowerCase`, the
white space `trim` strips, `localeCompare`) is a parameter. -/

/-- What the component takes from the JavaScript runtime. -/
structure JsRuntime where
  toLowerCase : String → String
  isWhiteSpace : Char → Bool
  localeCompare : String → String → ℚ

/-- `s.trim()`: the characters of `s` without leading and trailing white
space. -/
def trim (js : JsRuntime) (s : String) : List Char :=
  ((s.data.dropWhile js.isWhiteSpace).reverse.dropWhile js.isWhiteSpace).reverse

/-- `s.includes(t)`: `t` occurs in `s` as a run of consecutive characters. -/
def includes (s t : String) : Bool :=
  decide (t.data <:+: s.data)

/-- `[...l].sort(compare)`: a sorted copy. The sort is stable: `a` stays in
front of a later `b` unless `compare(a, b)` is positive. -/
def sortCopy {α : Type} (compare : α → α → ℚ) (l : List α) : List α :=
  l.insertionSort (fun a b => compare a b ≤ 0)

/-- The callback of `products.filter` in `filterAndSortProducts`. -/
def matchesSearch (js : JsRuntime) (searchTerm : String) (product : Product) : Bool :=
  includes (js.toLowerCase product.name) (js.toLowerCase searchTerm) ||
  includes (js.toLowerCase product.description) (js.toLowerCase searchTerm) ||
  includes (js.toLowerCase product.category) (js.toLowerCase searchTerm)

/-- The state of the component that `filterAndSortProducts` reads and
writes. -/
structure ProductListState where
  products : List Product
  filteredProducts : List Product
  searchTerm : String
  sortBy : String

/-- `filterAndSortProducts`: search, then sort by the chosen option, then
`setFilteredProducts`. -/
def filterAndSortProducts (js : JsRuntime) (s : ProductListState) : ProductListState :=
  let filtered := s.products
  let filtered :=
    if trim js s.searchTerm ≠ [] then s.products.filter (matchesSearch js s.searchTerm)
    else filtered
  let filtered :=
    if s.sortBy = "name" then
      sortCopy (fun a b => js.localeCompare a.name b.name) filtered
    else if s.sortBy = "price-low" then
      sortCopy (fun a b => a.price - b.price) filtered
    else if s.sortBy = "price-high" then
      sortCopy (fun a b => b.price - a.price) filtered
    else if s.sortBy = "newest" then
      sortCopy (fun a b => (b.createdAt : ℚ) - (a.createdAt : ℚ)) filtered
    else if s.sortBy = "oldest" then
      sortCopy (fun a b => (a.createdAt : ℚ) - (b.createdAt : ℚ)) filtered
    else filtered
  { s with filteredProducts := filtered }

/-- `totalValue`: the prices added up from 0. -/
def totalValue (products : List Product) : ℚ :=
  products.foldl (fun sum product => sum + product.price) 0

/-- The quotient `a / b` of JavaScript numbers: `none` stands for the value
that is not a finite number (`NaN`, `Infinity`), which a zero divisor gives. -/
def divide (a b : ℚ) : Option ℚ :=
  if b = 0 then none else some (a / b)

/-- `averagePrice`. -/
def averagePrice (products : List Product) : Option ℚ :=
  if products.length > 0 then divide (totalValue products) (products.length : ℚ) else some 0

/-- `premiumProducts`. -/
def premiumProducts (products : List Product) : Nat :=
  (products.filter (fun p => decide (p.price > 100))).length

/-! ## The client: `Signup.jsx` -/

/-- The form data of the signup page. -/
structure SignupForm where
  name : String
  email : String
  password : String
  confirmPassword : String

/-- `s.length`: the number of UTF-16 code units of a string. -/
def jsLength (s : String) : Nat :=
  (s.data.map (fun c => if c.toNat < 65536 then 1 else 2)).sum

/-- What `signup` of the auth context resolves to. -/
structure SignupResult where
  success : Bool
  message : String

/-- What one run of `handleSubmit` leaves behind: the error and loading state,
the signup requests made, and the route navigated to. -/
structure SubmitEffects where
  error : String
  loading : Bool
  requests : List (String × String × String)
  navigatedTo : Option String
deriving DecidableEq

/-- `handleSubmit` of the signup page; `signup` is the function of the auth
context. -/
def Signup.handleSubmit (signup : String → String → String → SignupResult)
    (formData : SignupForm) : SubmitEffects :=
  if formData.password ≠ formData.confirmPassword then
    { error := "Passwords do not match", loading := false, requests := [], navigatedTo := none }
  else if jsLength formData.password < 6 then
    { error := "Password must be at least 6 characters long", loading := false, requests := [],
      navigatedTo := none }
  else
    let result := signup formData.name formData.email formData.password
    if result.success then
      { error := "", loading := false,
        requests := [(formData.name, formData.email, formData.password)],
        navigatedTo := some "/" }
    else
      { error := result.message, loading := false,
        requests := [(formData.name, formData.email, formData.password)],
        navigatedTo := none }

/-- A runtime for examples: ASCII lower case, the ASCII white space, and the
order of strings by their characters. -/
def asciiRuntime : JsRuntime :=
  { toLowerCase := fun s => String.mk (s.data.map Char.toLower)
    isWhiteSpace := Char.isWhitespace
    localeCompare := fun a b => if a < b then -1 else if a = b then 0 else 1 }

/-- A product of user 1, with identifier 9, created at time 2000. -/
def blueGadget : Product :=
  { _id := 9, name := "Blue Gadget", description := "A gadget", price := 150,
    category := "Toys", user := 1, createdAt := 2000 }

/-! ## Lemmas on the collection operations -/

theorem findOne_eq_none_of_not_owned (st : Store) (id user : ObjectId)
    (h : ∀ p ∈ st, p._id = id → p.user ≠ user) : Product.findOne st id user = none := by
  unfold Product.findOne
  rw [List.find?_eq_none]
  intro p hp
  simp only [Bool.and_eq_true, beq_iff_eq, not_and]
  exact h p hp

theorem findOne_some_spec {st : Store} {id user : ObjectId} {p : Product}
    (h : Product.findOne st id user = some p) : p ∈ st ∧ p._id = id ∧ p.user = user := by
  unfold Product.findOne at h
  have hm := List.mem_of_find?_eq_some h
  have hp := List.find?_some h
  simp only [Bool.and_eq_true, beq_iff_eq] at hp
  exact ⟨hm, hp.1, hp.2⟩

theorem mem_find_iff (st : Store) (user : ObjectId) (p : Product) :
    p ∈ Product.find st user ↔ p ∈ st ∧ p.user = user := by
  simp [Product.find]

theorem create_ok_spec {S : ProductSchema} {st : Store} {n d pr c : JVal}
    {user oid : ObjectId} {now : Nat} {p : Product} {st' : Store}
    (h : Product.create S st n d pr c user oid now = .ok (p, st')) :
    S.name n = .ok p.name ∧ S.description d = .ok p.description ∧ S.price pr = .ok p.price ∧
    S.category c = .ok p.category ∧ (∀ r ∈ st, r._id ≠ oid) ∧
    p._id = oid ∧ p.user = user ∧ p.createdAt = now ∧ st' = st ++ [p] := by
  unfold Product.create at h
  cases hn : S.name n with
  | error e => simp [hn, bind, Except.bind] at h
  | ok a =>
    cases hd : S.description d with
    | error e => simp [hn, hd, bind, Except.bind] at h
    | ok b =>
      cases hp : S.price pr with
      | error e => simp [hn, hd, hp, bind, Except.bind] at h
      | ok q =>
        cases hc : S.category c with
        | error e => simp [hn, hd, hp, hc, bind, Except.bind] at h
        | ok t =>
          simp only [hn, hd, hp, hc, bind, Except.bind] at h
          by_cases hany : st.any (fun p => p._id == oid) = true
          · simp [hany, throw, throwThe, MonadExceptOf.throw] at h
          · simp only [hany, pure, Except.pure, Except.ok.injEq, Prod.mk.injEq] at h
            obtain ⟨h1, h2⟩ := h
            refine ⟨rfl, rfl, rfl, rfl, ?_, rfl, rfl, rfl, rfl⟩
            intro r hr hid
            apply hany
            rw [List.any_eq_true]
            exact ⟨r, hr, by simp [hid]⟩

theorem create_ok_of_accepted {S : ProductSchema} {st : Store} {n d pr c : JVal}
    {user oid : ObjectId} {now : Nat} {a b t : String} {q : ℚ}
    (hn : S.name n = .ok a) (hd : S.description d = .ok b) (hp : S.price pr = .ok q)
    (hc : S.category c = .ok t) (hfresh : ∀ r ∈ st, r._id ≠ oid) :
    Product.create S st n d pr c user oid now =
      .ok ({ _id := oid, name := a, description := b, price := q, category := t,
             user := user, createdAt := now },
           st ++ [{ _id := oid, name := a, description := b, price := q, category := t,
                    user := user, createdAt := now }]) := by
  have hany : st.any (fun p => p._id == oid) = false := by
    rw [List.any_eq_false]
    intro r hr
    simpa using hfresh r hr
  unfold Product.create
  simp [hn, hd, hp, hc, hany, bind, Except.bind, pure, Except.pure]

theorem create_error_unchanged {S : ProductSchema} {st : Store} {body : Body}
    {user oid : ObjectId} {now : Nat} {e : String}
    (h : Product.create S st (body.field "name") (body.field "description")
      (body.field "price") (body.field "category") user oid now = .error e) :
    (router.post S st user body oid now).1.status ≠ 201 ∧
    (router.post S st user body oid now).2 = st := by
  unfold router.post
  simp only [h]
  split <;> simp [serverError]

theorem post_created_spec {S : ProductSchema} {st : Store} {user : ObjectId} {body : Body}
    {oid : ObjectId} {now : Nat} (h : (router.post S st user body oid now).1.status = 201) :
    ∃ p st', Product.create S st (body.field "name") (body.field "description")
        (body.field "price") (body.field "category") user oid now = .ok (p, st') ∧
      router.post S st user body oid now =
        ({ status := 201, success := true, message := some "Product created successfully",
           data := .product p }, st') := by
  cases hc : Product.create S st (body.field "name") (body.field "description")
      (body.field "price") (body.field "category") user oid now with
  | error e => exact absurd h (create_error_unchanged hc).1
  | ok r =>
    obtain ⟨p, st'⟩ := r
    refine ⟨p, st', rfl, ?_⟩
    unfold router.post at h ⊢
    simp only [hc] at h ⊢
    split
    · rename_i hf
      simp [hf] at h
    · rfl

theorem post_of_all_truthy {S : ProductSchema} {st : Store} {user : ObjectId} {body : Body}
    {oid : ObjectId} {now : Nat}
    (hn : truthy (body.field "name") = true) (hd : truthy (body.field "description") = true)
    (hc : truthy (body.field "category") = true) (hp : truthy (body.field "price") = true) :
    router.post S st user body oid now =
      match Product.create S st (body.field "name") (body.field "description")
        (body.field "price") (body.field "category") user oid now with
      | .ok (product, st') =>
        ({ status := 201, success := true, message := some "Product created successfully",
           data := .product product }, st')
      | .error e => (serverError e, st) := by
  unfold router.post
  simp [hn, hd, hc, hp]

theorem user_key_not_read (body : Body) (v : JVal) :
    Body.field (("user", v) :: body) "name" = body.field "name" ∧
    Body.field (("user", v) :: body) "description" = body.field "description" ∧
    Body.field (("user", v) :: body) "price" = body.field "price" ∧
    Body.field (("user", v) :: body) "category" = body.field "category" := by
  refine ⟨?_, ?_, ?_, ?_⟩ <;> simp [Body.field, List.lookup]

theorem find?_of_uniqueIds {st : Store} {p : Product} (hu : UniqueIds st) (hp : p ∈ st)
    (f : Product → Bool) (hf : f p = true) (himp : ∀ x, f x = true → x._id = p._id) :
    st.find? f = some p := by
  induction st with
  | nil => cases hp
  | cons a rest ih =>
    unfold UniqueIds at hu
    rw [List.map_cons, List.nodup_cons] at hu
    by_cases hfa : f a = true
    · have hida := himp a hfa
      have : p = a := by
        rcases List.mem_cons.mp hp with h | h
        · exact h
        · exfalso
          apply hu.1
          rw [hida]
          exact List.mem_map_of_mem (fun p => p._id) h
      subst this
      simp [List.find?, hfa]
    · have hne : p ≠ a := fun h => hfa (h ▸ hf)
      have hpr : p ∈ rest := by
        rcases List.mem_cons.mp hp with h | h
        · exact absurd h hne
        · exact h
      simp only [List.find?, hfa]
      exact ih hu.2 hpr

theorem findById_of_mem {st : Store} {p : Product} (hu : UniqueIds st) (hp : p ∈ st) :
    Product.findById st p._id = some p :=
  find?_of_uniqueIds hu hp _ (by simp) (fun x hx => by simpa using hx)

theorem findOne_of_mem {st : Store} {p : Product} (hu : UniqueIds st) (hp : p ∈ st) :
    Product.findOne st p._id p.user = some p :=
  find?_of_uniqueIds hu hp _ (by simp) (fun x hx => by
    simp only [Bool.and_eq_true, beq_iff_eq] at hx
    exact hx.1)

theorem findById_some_spec {st : Store} {id : ObjectId} {p : Product}
    (h : Product.findById st id = some p) : p ∈ st ∧ p._id = id := by
  unfold Product.findById at h
  have hm := List.mem_of_find?_eq_some h
  have hp := List.find?_some h
  simp only [beq_iff_eq] at hp
  exact ⟨hm, hp⟩

theorem map_id_replaceById (id : ObjectId) (q : Product) (hq : q._id = id) (st : Store) :
    (replaceById id q st).map (fun p => p._id) = st.map (fun p => p._id) := by
  induction st with
  | nil => rfl
  | cons a rest ih =>
    unfold replaceById
    by_cases h : (a._id == id) = true
    · simp only [h, if_true, List.map_cons]
      rw [hq, beq_iff_eq.mp h]
    · simp [h, ih]

theorem findById_replaceById {id : ObjectId} {q : Product} (hq : q._id = id) {st : Store}
    (h : (Product.findById st id).isSome = true) :
    Product.findById (replaceById id q st) id = some q := by
  induction st with
  | nil => simp [Product.findById] at h
  | cons a rest ih =>
    unfold replaceById
    by_cases ha : (a._id == id) = true
    · simp [ha, Product.findById, List.find?, hq]
    · have hrest : (Product.findById rest id).isSome = true := by
        simpa [Product.findById, List.find?, ha] using h
      have := ih hrest
      simp only [ha, Product.findById, List.find?] at this ⊢
      simpa using this

theorem mem_replaceById_of_ne {id : ObjectId} {q : Product} (hq : q._id = id) (st : Store)
    (r : Product) (hr : r._id ≠ id) : r ∈ replaceById id q st ↔ r ∈ st := by
  induction st with
  | nil => simp [replaceById]
  | cons a rest ih =>
    unfold replaceById
    by_cases ha : (a._id == id) = true
    · have hra : r ≠ a := fun h => hr (h ▸ beq_iff_eq.mp ha)
      have hrq : r ≠ q := fun h => hr (h ▸ hq)
      simp [ha, hra, hrq]
    · simp [ha, ih]

theorem setPath_spec {α : Type} {body : Body} {key : String} {immutable : Bool}
    {cast : JVal → Except String α} {old x : α}
    (h : setPath body key immutable cast old = .ok x) :
    (body.lookup key = none → x = old) ∧ (immutable = true → x = old) ∧
    (∀ v, body.lookup key = some v → immutable = false → cast v = .ok x) := by
  unfold setPath at h
  cases hl : body.lookup key with
  | none =>
    simp only [hl, pure, Except.pure, Except.ok.injEq] at h
    exact ⟨fun _ => h.symm, fun _ => h.symm, fun v hv => by cases hv⟩
  | some w =>
    cases immutable with
    | true =>
      simp only [hl, if_true, pure, Except.pure, Except.ok.injEq] at h
      refine ⟨fun hn => ?_, fun _ => h.symm, fun v _ hf => ?_⟩
      · cases hn
      · cases hf
    | false =>
      simp only [hl] at h
      refine ⟨fun hn => ?_, fun hf => ?_, fun v hv _ => ?_⟩
      · cases hn
      · cases hf
      · cases hv
        simpa using h

theorem applyUpdate_spec {S : ProductSchema} {body : Body} {p q : Product}
    (h : applyUpdate S body p = .ok q) :
    q._id = p._id ∧
    setPath body "name" false S.name p.name = .ok q.name ∧
    setPath body "description" false S.description p.description = .ok q.description ∧
    setPath body "price" false S.price p.price = .ok q.price ∧
    setPath body "category" false S.category p.category = .ok q.category ∧
    setPath body "user" S.userImmutable S.user p.user = .ok q.user ∧
    setPath body "createdAt" S.createdAtImmutable S.createdAt p.createdAt = .ok q.createdAt := by
  unfold applyUpdate at h
  cases h0 : checkId S body p with
  | error e => simp [h0, bind, Except.bind] at h
  | ok u0 =>
  cases h1 : setPath body "name" false S.name p.name with
  | error e => simp [h0, h1, bind, Except.bind] at h
  | ok n =>
  cases h2 : setPath body "description" false S.description p.description with
  | error e => simp [h0, h1, h2, bind, Except.bind] at h
  | ok d =>
  cases h3 : setPath body "price" false S.price p.price with
  | error e => simp [h0, h1, h2, h3, bind, Except.bind] at h
  | ok pr =>
  cases h4 : setPath body "category" false S.category p.category with
  | error e => simp [h0, h1, h2, h3, h4, bind, Except.bind] at h
  | ok c =>
  cases h5 : setPath body "user" S.userImmutable S.user p.user with
  | error e => simp [h0, h1, h2, h3, h4, h5, bind, Except.bind] at h
  | ok u =>
  cases h6 : setPath body "createdAt" S.createdAtImmutable S.createdAt p.createdAt with
  | error e => simp [h0, h1, h2, h3, h4, h5, h6, bind, Except.bind] at h
  | ok t =>
    simp only [h0, h1, h2, h3, h4, h5, h6, bind, Except.bind, pure, Except.pure,
      Except.ok.injEq] at h
    subst h
    exact ⟨rfl, rfl, rfl, rfl, rfl, rfl, rfl⟩

theorem put_of_castId {S : ProductSchema} {st : Store} {user : ObjectId} {idParam : String}
    {id : ObjectId} {body : Body} (hcast : castId S idParam = .ok id) :
    router.put S st user idParam body =
      match Product.findOne st id user with
      | none => (notFound, st)
      | some _ =>
        match Product.findByIdAndUpdate S st id body with
        | .ok (updatedProduct, st') =>
          ({ status := 200, success := true, message := some "Product updated successfully",
             data := match updatedProduct with
               | some p => .product p
               | none => .null }, st')
        | .error e => (serverError e, st) := by
  unfold router.put
  rw [hcast]

theorem put_of_castId_error {S : ProductSchema} {st : Store} {user : ObjectId}
    {idParam : String} {e : String} {body : Body} (hcast : castId S idParam = .error e) :
    router.put S st user idParam body = (serverError e, st) := by
  unfold router.put
  rw [hcast]

theorem delete_of_castId {S : ProductSchema} {st : Store} {user : ObjectId} {idParam : String}
    {id : ObjectId} (hcast : castId S idParam = .ok id) :
    router.delete S st user idParam =
      match Product.findOne st id user with
      | none => (notFound, st)
      | some _ =>
        ({ status := 200, success := true, message := some "Product deleted successfully",
           data := .absent }, (Product.findByIdAndDelete st id).2) := by
  unfold router.delete
  rw [hcast]

theorem delete_of_castId_error {S : ProductSchema} {st : Store} {user : ObjectId}
    {idParam : String} {e : String} (hcast : castId S idParam = .error e) :
    router.delete S st user idParam = (serverError e, st) := by
  unfold router.delete
  rw [hcast]

theorem put_of_owned {S : ProductSchema} {st : Store} {user id : ObjectId} {idParam : String}
    {body : Body} {p : Product} (hcast : castId S idParam = .ok id) (hu : UniqueIds st)
    (hp : p ∈ st) (hid : p._id = id) (ho : p.user = user) :
    router.put S st user idParam body =
      match applyUpdate S body p with
      | .ok q =>
        ({ status := 200, success := true, message := some "Product updated successfully",
           data := .product q }, replaceById id q st)
      | .error e => (serverError e, st) := by
  rw [put_of_castId hcast]
  subst hid
  subst ho
  unfold Product.findByIdAndUpdate
  rw [findOne_of_mem hu hp, findById_of_mem hu hp]
  cases h : applyUpdate S body p with
  | error e => simp [h, bind, Except.bind]
  | ok q => simp [h, bind, Except.bind, pure, Except.pure]

theorem post_store_cases (S : ProductSchema) (st : Store) (user : ObjectId) (body : Body)
    (oid : ObjectId) (now : Nat) :
    (router.post S st user body oid now).2 = st ∨
    ∃ p : Product, (∀ r ∈ st, r._id ≠ p._id) ∧ (router.post S st user body oid now).2 = st ++ [p] := by
  by_cases h : (router.post S st user body oid now).1.status = 201
  · obtain ⟨p, st', hcr, hpost⟩ := post_created_spec h
    obtain ⟨_, _, _, _, hfresh, hid, _, _, hst⟩ := create_ok_spec hcr
    right
    refine ⟨p, ?_, ?_⟩
    · rw [hid]
      exact hfresh
    · rw [hpost, hst]
  · left
    unfold router.post at h ⊢
    simp only at h ⊢
    split
    · rfl
    · rename_i hf
      simp only [hf] at h
      cases hcr : Product.create S st (body.field "name") (body.field "description")
          (body.field "price") (body.field "category") user oid now with
      | error e => rfl
      | ok r => simp [hcr] at h

theorem put_store_cases (S : ProductSchema) (st : Store) (user : ObjectId) (idParam : String)
    (body : Body) :
    (router.put S st user idParam body).2 = st ∨
    ∃ (id : ObjectId) (q : Product), q._id = id ∧
      (router.put S st user idParam body).2 = replaceById id q st := by
  cases hcast : castId S idParam with
  | error e => left; rw [put_of_castId_error hcast]
  | ok id =>
    rw [put_of_castId hcast]
    unfold Product.findByIdAndUpdate
    cases hone : Product.findOne st id user with
    | none => left; rfl
    | some p0 =>
      cases hby : Product.findById st id with
      | none => left; rfl
      | some p =>
        cases hup : applyUpdate S body p with
        | error e => left; simp [hup, bind, Except.bind]
        | ok q =>
          right
          refine ⟨id, q, ?_, ?_⟩
          · rw [(applyUpdate_spec hup).1]
            exact (findById_some_spec hby).2
          · simp [hup, bind, Except.bind, pure, Except.pure]

theorem serve_uniqueIds (S : ProductSchema) (st : Store) (r : Request) (hu : UniqueIds st) :
    UniqueIds (serve S st r).2 := by
  cases r with
  | list user => exact hu
  | create user body oid now =>
    rcases post_store_cases S st user body oid now with h | ⟨p, hfresh, h⟩
    · simp only [serve, h]
      exact hu
    · simp only [serve, h]
      unfold UniqueIds at hu ⊢
      rw [List.map_append, List.nodup_append]
      refine ⟨hu, List.nodup_singleton _, ?_⟩
      intro a ha hb
      simp only [List.map_cons, List.map_nil, List.mem_singleton] at hb
      obtain ⟨r, hr, hra⟩ := List.mem_map.mp ha
      exact hfresh r hr (hra.trans hb)
  | update user idParam body =>
    rcases put_store_cases S st user idParam body with h | ⟨id, q, hq, h⟩
    · simp only [serve, h]
      exact hu
    · simp only [serve, h]
      unfold UniqueIds
      rw [map_id_replaceById id q hq]
      exact hu
  | delete user idParam =>
    simp only [serve]
    cases hcast : castId S idParam with
    | error e => rw [delete_of_castId_error hcast]; exact hu
    | ok id =>
    rw [delete_of_castId hcast]
    cases Product.findOne st id user with
    | none => exact hu
    | some p0 =>
      unfold UniqueIds at hu ⊢
      exact hu.sublist (List.Sublist.map _ (List.eraseP_sublist st))

theorem reachable_uniqueIds (S : ProductSchema) (st : Store) (h : Reachable S st) :
    UniqueIds st := by
  obtain ⟨reqs, rfl⟩ := h
  unfold run
  have key : ∀ (rs : List Request) (st0 : Store), UniqueIds st0 →
      UniqueIds (rs.foldl (fun st r => (serve S st r).2) st0) := by
    intro rs
    induction rs with
    | nil => intro st0 h0; exact h0
    | cons r rest ih =>
      intro st0 h0
      exact ih _ (serve_uniqueIds S st0 r h0)
  exact key reqs [] List.nodup_nil

/-- Price 0 on create: the presence test `!price` takes it for a missing
price and the answer is 400. -/
theorem create_zero_price_is_400 (S : ProductSchema) (st : Store) (user oid : ObjectId)
    (now : Nat) :
    router.post S st user (widgetPriced 0) oid now =
      ({ status := 400, success := false,
         message := some "Please provide all product details", data := .absent }, st) := by
  unfold router.post
  simp [widgetPriced, Body.field, List.lookup, truthy]

theorem eq_of_same_id {st : Store} (hu : UniqueIds st) {x y : Product} (hx : x ∈ st)
    (hy : y ∈ st) (h : x._id = y._id) : x = y :=
  List.inj_on_of_nodup_map hu hx hy h

theorem no_id_after_removeById {st : Store} (hu : UniqueIds st) (id : ObjectId) :
    ∀ r ∈ removeById id st, r._id ≠ id := by
  unfold removeById
  induction st with
  | nil => intro r hr; cases hr
  | cons a rest ih =>
    unfold UniqueIds at hu
    rw [List.map_cons, List.nodup_cons] at hu
    intro r hr hid
    by_cases ha : (a._id == id) = true
    · simp only [List.eraseP_cons, ha, if_true] at hr
      apply hu.1
      rw [beq_iff_eq.mp ha, ← hid]
      exact List.mem_map_of_mem (fun p => p._id) hr
    · simp only [List.eraseP_cons, ha] at hr
      rcases List.mem_cons.mp hr with h | h
      · apply ha
        rw [← h, hid]
        exact beq_self_eq_true id
      · exact ih hu.2 r h hid

theorem delete_of_owned {S : ProductSchema} {st : Store} {user : ObjectId} {idParam : String}
    {p : Product} (hcast : castId S idParam = .ok p._id) (hu : UniqueIds st)
    (hp : p ∈ st) (ho : p.user = user) :
    router.delete S st user idParam =
      ({ status := 200, success := true, message := some "Product deleted successfully",
         data := .absent }, removeById p._id st) := by
  subst ho
  rw [delete_of_castId hcast, findOne_of_mem hu hp]
  rfl

theorem findOne_eq_find_ownedBy (st : Store) (user id : ObjectId) :
    Product.findOne st id user = st.find? (ownedBy user id) := rfl

theorem replaceById_eq_replaceFirst (id : ObjectId) (q : Product) (st : Store) :
    replaceById id q st = replaceFirst (fun p => p._id == id) q st := by
  induction st with
  | nil => rfl
  | cons a rest ih => simp only [replaceById, replaceFirst, ih]

theorem replaceFirst_congr {f g : Product → Bool} (q : Product) {st : Store}
    (h : ∀ x ∈ st, f x = g x) : replaceFirst f q st = replaceFirst g q st := by
  induction st with
  | nil => rfl
  | cons a rest ih =>
    simp only [replaceFirst, h a (List.mem_cons_self a rest),
      ih (fun x hx => h x (List.mem_cons_of_mem a hx))]

theorem eraseP_congr_mem {f g : Product → Bool} {st : Store}
    (h : ∀ x ∈ st, f x = g x) : st.eraseP f = st.eraseP g := by
  induction st with
  | nil => rfl
  | cons a rest ih =>
    simp only [List.eraseP_cons, h a (List.mem_cons_self a rest),
      ih (fun x hx => h x (List.mem_cons_of_mem a hx))]

theorem id_test_eq_ownedBy {st : Store} {user id : ObjectId} {p : Product}
    (hu : UniqueIds st) (hp : p ∈ st) (hid : p._id = id) (ho : p.user = user) :
    ∀ x ∈ st, (x._id == id) = ownedBy user id x := by
  intro x hx
  unfold ownedBy
  by_cases h : x._id = id
  · have hxp : x = p := eq_of_same_id hu hx hp (h.trans hid.symm)
    subst hxp
    simp [h, ho]
  · simp [h]

theorem putTry_of_castId {S : ProductSchema} {f1 f2 : Option String} {st : Store}
    {user : ObjectId} {idParam : String} {id : ObjectId} {body : Body}
    (hcast : castId S idParam = .ok id) :
    router.putTry S f1 f2 st user idParam body =
      match storeCall f1 (.ok (Product.findOne st id user)) with
      | .error e => (serverError e, st)
      | .ok none => (notFound, st)
      | .ok (some _) =>
        match storeCall f2 (Product.findByIdAndUpdate S st id body) with
        | .ok (updatedProduct, st') =>
          ({ status := 200, success := true, message := some "Product updated successfully",
             data := match updatedProduct with
               | some p => .product p
               | none => .null }, st')
        | .error e => (serverError e, st) := by
  unfold router.putTry
  rw [hcast]

theorem deleteTry_of_castId {S : ProductSchema} {f1 f2 : Option String} {st : Store}
    {user : ObjectId} {idParam : String} {id : ObjectId}
    (hcast : castId S idParam = .ok id) :
    router.deleteTry S f1 f2 st user idParam =
      match storeCall f1 (.ok (Product.findOne st id user)) with
      | .error e => (serverError e, st)
      | .ok none => (notFound, st)
      | .ok (some _) =>
        match storeCall f2 (.ok (Product.findByIdAndDelete st id)) with
        | .ok deleted =>
          ({ status := 200, success := true, message := some "Product deleted successfully",
             data := .absent }, deleted.2)
        | .error e => (serverError e, st) := by
  unfold router.deleteTry
  rw [hcast]

theorem try_without_failure (S : ProductSchema) (st : Store) (user : ObjectId)
    (idParam : String) (body : Body) (oid : ObjectId) (now : Nat) :
    router.getTry none st user = router.get st user ∧
    router.postTry S none st user body oid now = router.post S st user body oid now ∧
    router.putTry S none none st user idParam body = router.put S st user idParam body ∧
    router.deleteTry S none none st user idParam = router.delete S st user idParam := by
  refine ⟨rfl, rfl, ?_, ?_⟩
  · cases hcast : castId S idParam with
    | error e =>
      rw [put_of_castId_error hcast]
      unfold router.putTry
      rw [hcast]
    | ok id =>
      rw [putTry_of_castId hcast, put_of_castId hcast]
      unfold storeCall
      cases Product.findOne st id user <;> rfl
  · cases hcast : castId S idParam with
    | error e =>
      rw [delete_of_castId_error hcast]
      unfold router.deleteTry
      rw [hcast]
    | ok id =>
      rw [deleteTry_of_castId hcast, delete_of_castId hcast]
      unfold storeCall
      cases Product.findOne st id user <;> rfl

/-! ## Lemmas on the client -/

theorem trim_eq_nil_iff (js : JsRuntime) (s : String) :
    trim js s = [] ↔ ∀ c ∈ s.data, js.isWhiteSpace c = true := by
  unfold trim
  rw [List.reverse_eq_nil_iff, List.dropWhile_eq_nil_iff]
  constructor
  · intro h
    have h1 : ∀ x ∈ s.data.dropWhile js.isWhiteSpace, js.isWhiteSpace x = true :=
      fun x hx => h x (List.mem_reverse.mpr hx)
    rw [← List.dropWhile_eq_nil_iff, List.dropWhile_idempotent, List.dropWhile_eq_nil_iff] at h1
    exact h1
  · intro h x hx
    exact h x ((List.dropWhile_sublist _).subset (List.mem_reverse.mp hx))

theorem sortCopy_perm {α : Type} (compare : α → α → ℚ) (l : List α) :
    (sortCopy compare l).Perm l :=
  List.perm_insertionSort _ l

theorem sortCopy_sorted {α : Type} (compare : α → α → ℚ)
    (htotal : ∀ a b, compare a b ≤ 0 ∨ compare b a ≤ 0)
    (htrans : ∀ a b c, compare a b ≤ 0 → compare b c ≤ 0 → compare a c ≤ 0) (l : List α) :
    (sortCopy compare l).Sorted (fun a b => compare a b ≤ 0) := by
  haveI : IsTotal α (fun a b => compare a b ≤ 0) := ⟨htotal⟩
  haveI : IsTrans α (fun a b => compare a b ≤ 0) := ⟨htrans⟩
  exact List.sorted_insertionSort _ l

theorem sortCopy_sorted_by {α β : Type} [LinearOrder β] (key : α → β) (compare : α → α → ℚ)
    (h : ∀ a b, compare a b ≤ 0 ↔ key a ≤ key b) (l : List α) :
    (sortCopy compare l).Sorted (fun a b => key a ≤ key b) := by
  have hs := sortCopy_sorted compare
    (fun a b => by rw [h, h]; exact le_total _ _)
    (fun a b c => by rw [h, h, h]; exact le_trans) l
  exact List.Pairwise.imp (fun {a b} hab => (h a b).mp hab) hs

/-- The products the search step of `filterAndSortProducts` keeps. -/
theorem filtered_perm_found (js : JsRuntime) (s : ProductListState) :
    (filterAndSortProducts js s).filteredProducts.Perm
      (if trim js s.searchTerm ≠ [] then s.products.filter (matchesSearch js s.searchTerm)
       else s.products) := by
  unfold filterAndSortProducts
  simp only
  split_ifs <;> first | exact sortCopy_perm _ _ | exact List.Perm.refl _

theorem totalValue_eq_sum (products : List Product) :
    totalValue products = (products.map (fun p => p.price)).sum := by
  unfold totalValue
  have key : ∀ (l : List Product) (acc : ℚ),
      l.foldl (fun sum product => sum + product.price) acc
        = acc + (l.map (fun p => p.price)).sum := by
    intro l
    induction l with
    | nil => intro acc; simp
    | cons a rest ih =>
      intro acc
      simp only [List.foldl_cons, List.map_cons, List.sum_cons, ih]
      ring
  rw [key products 0, zero_add]

theorem asciiRuntime_compare_iff (a b : String) :
    asciiRuntime.localeCompare a b ≤ 0 ↔ a ≤ b := by
  unfold asciiRuntime
  simp only
  split_ifs with h1 h2
  · exact ⟨fun _ => le_of_lt h1, fun _ => by norm_num⟩
  · exact ⟨fun _ => le_of_eq h2, fun _ => le_refl _⟩
  · constructor
    · intro h
      norm_num at h
    · intro h
      rcases lt_or_eq_of_le h with h3 | h3
      · exact absurd h3 h1
      · exact absurd h3 h2

/-! ## The claims -/

/-- C3. For every collection and every requester, list answers 200 with
`{success: true, data}`, leaves the collection as it is, and `data` holds
exactly the products whose owner is the requester (each as often as the
collection holds it, none of another owner), newest creation time first. -/
theorem list_returns_owned_newest_first (st : Store) (user : ObjectId) :
    ∃ ps : List Product,
      router.get st user =
        ({ status := 200, success := true, message := none, data := .products ps }, st)
      ∧ ps.Perm (st.filter (fun p => decide (p.user = user)))
      ∧ (∀ p, p ∈ ps ↔ p ∈ st ∧ p.user = user)
      ∧ ps.Sorted (fun a b => b.createdAt ≤ a.createdAt) := by
  refine ⟨sortCreatedAtDesc (Product.find st user), rfl, ?_, ?_, ?_⟩
  · have h : Product.find st user = st.filter (fun p => decide (p.user = user)) := by
      unfold Product.find
      congr 1
    rw [← h]
    exact List.perm_insertionSort newerFirst _
  · intro p
    rw [← mem_find_iff]
    exact (List.perm_insertionSort newerFirst _).mem_iff
  · exact List.sorted_insertionSort newerFirst _

/-- C4 as stated fails: for a route parameter that is not a well-formed
identifier, which is the identifier of no product, update answers 500 with
the message of the cast error, not 404. -/
theorem update_malformed_id_is_500 :
    (∀ id : ObjectId, castId plainSchema "notanid" ≠ .ok id) ∧
    router.put plainSchema [storedWidget] 1 "notanid" [("price", .num 25)] =
      ({ status := 500, success := false,
         message := some "Cast to ObjectId failed at path _id", data := .absent },
       [storedWidget]) :=
  ⟨fun _ h => Except.noConfusion h, by decide⟩

/-- C4, amended. When the route parameter is a well-formed identifier and no
product with that identifier is owned by the requester (no product has it, or
those that have it belong to other users), update answers 404 with
`{success: false, message: "Product not found"}` and the collection is
unchanged, whatever the body and the schema. When the route parameter is not a
well-formed identifier, update answers 500 with `{success: false, message}`,
the message being that of the cast error, and the collection is unchanged. -/
theorem update_not_owned_is_404 (S : ProductSchema) (st : Store) (user : ObjectId)
    (idParam : String) (body : Body) :
    (∀ id : ObjectId, castId S idParam = .ok id →
      (∀ p ∈ st, p._id = id → p.user ≠ user) →
      router.put S st user idParam body =
        ({ status := 404, success := false, message := some "Product not found",
           data := .absent }, st))
    ∧ (∀ e : String, castId S idParam = .error e →
      router.put S st user idParam body =
        ({ status := 500, success := false, message := some e, data := .absent }, st)) := by
  constructor
  · intro id hcast h
    rw [put_of_castId hcast, findOne_eq_none_of_not_owned st id user h]
    rfl
  · intro e hcast
    rw [put_of_castId_error hcast]
    rfl

/-- C5 as stated fails: for a route parameter that is not a well-formed
identifier, which is the identifier of no product, delete answers 500 with
the message of the cast error, not 404. -/
theorem delete_malformed_id_is_500 :
    (∀ id : ObjectId, castId plainSchema "notanid" ≠ .ok id) ∧
    router.delete plainSchema [storedWidget] 1 "notanid" =
      ({ status := 500, success := false,
         message := some "Cast to ObjectId failed at path _id", data := .absent },
       [storedWidget]) :=
  ⟨fun _ h => Except.noConfusion h, by decide⟩

/-- C5, amended. When the route parameter is a well-formed identifier and no
product with that identifier is owned by the requester (no product has it, or
those that have it belong to other users), delete answers 404 with
`{success: false, message: "Product not found"}` and the collection is
unchanged. When the route parameter is not a well-formed identifier, delete
answers 500 with `{success: false, message}`, the message being that of the
cast error, and the collection is unchanged. -/
theorem delete_not_owned_is_404 (S : ProductSchema) (st : Store) (user : ObjectId)
    (idParam : String) :
    (∀ id : ObjectId, castId S idParam = .ok id →
      (∀ p ∈ st, p._id = id → p.user ≠ user) →
      router.delete S st user idParam =
        ({ status := 404, success := false, message := some "Product not found",
           data := .absent }, st))
    ∧ (∀ e : String, castId S idParam = .error e →
      router.delete S st user idParam =
        ({ status := 500, success := false, message := some e, data := .absent }, st)) := by
  constructor
  · intro id hcast h
    rw [delete_of_castId hcast, findOne_eq_none_of_not_owned st id user h]
    rfl
  · intro e hcast
    rw [delete_of_castId_error hcast]
    rfl

/-- C6. A create request whose body lacks any of `name`, `description`,
`category` or `price` is answered 400 with `{success: false, message}` and
nothing is persisted: the collection is unchanged. -/
theorem create_missing_field_is_400 (S : ProductSchema) (st : Store) (user : ObjectId)
    (body : Body) (oid : ObjectId) (now : Nat)
    (h : body.lookup "name" = none ∨ body.lookup "description" = none ∨
         body.lookup "category" = none ∨ body.lookup "price" = none) :
    router.post S st user body oid now =
      ({ status := 400, success := false,
         message := some "Please provide all product details", data := .absent }, st) := by
  have hf : (!truthy (body.field "name") || !truthy (body.field "description")
      || !truthy (body.field "price") || !truthy (body.field "category")) = true := by
    rcases h with h | h | h | h <;> simp [Body.field, h, truthy]
  unfold router.post
  simp only [hf, if_true]

/-- Witness of C4 (amended): the identifier belongs to another user. -/
theorem update_not_owned_is_404_witness :
    (∀ p ∈ [storedWidget], p._id = 7 → p.user ≠ 2) ∧
    router.put plainSchema [storedWidget] 2 "7" [("price", .num 25)] =
      ({ status := 404, success := false, message := some "Product not found",
         data := .absent }, [storedWidget]) :=
  ⟨by decide,
   (update_not_owned_is_404 plainSchema [storedWidget] 2 "7" [("price", .num 25)]).1 7 rfl
     (by decide)⟩

/-- Witness of C5 (amended): the identifier belongs to another user. -/
theorem delete_not_owned_is_404_witness :
    (∀ p ∈ [storedWidget], p._id = 7 → p.user ≠ 2) ∧
    router.delete plainSchema [storedWidget] 2 "7" =
      ({ status := 404, success := false, message := some "Product not found",
         data := .absent }, [storedWidget]) :=
  ⟨by decide, (delete_not_owned_is_404 plainSchema [storedWidget] 2 "7").1 7 rfl (by decide)⟩

/-- Witness of C6: a body without a price. -/
theorem create_missing_field_is_400_witness :
    router.post plainSchema [storedWidget] 1
        [("name", .str "Widget"), ("description", .str "A widget"), ("category", .str "Tools")]
        8 2000 =
      ({ status := 400, success := false,
         message := some "Please provide all product details", data := .absent },
       [storedWidget]) :=
  create_missing_field_is_400 plainSchema [storedWidget] 1
    [("name", .str "Widget"), ("description", .str "A widget"), ("category", .str "Tools")]
    8 2000 (by decide)

/-- C7 as stated fails: a create request with the price -5 is not answered
400. Under a schema with `min: 0` on the price the answer is 500, under a
schema without a bound the product is persisted with that price. -/
theorem create_negative_price_not_400 :
    router.post minPriceSchema [] 1 (widgetPriced (-5)) 7 1000 =
      ({ status := 500, success := false,
         message := some "Path price is less than minimum allowed value.",
         data := .absent }, [])
    ∧ router.post plainSchema [] 1 (widgetPriced (-5)) 7 1000 =
      ({ status := 201, success := true, message := some "Product created successfully",
         data := .product { storedWidget with price := -5 } },
       [{ storedWidget with price := -5 }]) := by
  decide

/-- C7, amended. For every create request whose name, description, category
and price are all truthy (any price that is a number other than 0, negative
ones included): the answer is never 400; when the schema accepts the four
values and the new identifier is unused, the product is persisted and the
answer is 201; in every other case the answer is 500 and the collection is
unchanged, in particular when the schema rejects the price. -/
theorem create_price_checked_by_schema_only (S : ProductSchema) (st : Store) (user : ObjectId)
    (body : Body) (oid : ObjectId) (now : Nat)
    (hn : truthy (body.field "name") = true) (hd : truthy (body.field "description") = true)
    (hc : truthy (body.field "category") = true) (hp : truthy (body.field "price") = true) :
    (router.post S st user body oid now).1.status ≠ 400
    ∧ (∀ a b t q, S.name (body.field "name") = .ok a →
        S.description (body.field "description") = .ok b →
        S.price (body.field "price") = .ok q → S.category (body.field "category") = .ok t →
        (∀ r ∈ st, r._id ≠ oid) →
        router.post S st user body oid now =
          ({ status := 201, success := true, message := some "Product created successfully",
             data := .product { _id := oid, name := a, description := b, price := q,
                                category := t, user := user, createdAt := now } },
           st ++ [{ _id := oid, name := a, description := b, price := q,
                    category := t, user := user, createdAt := now }]))
    ∧ ((router.post S st user body oid now).1.status ≠ 201 →
        (router.post S st user body oid now).1.status = 500 ∧
        (router.post S st user body oid now).2 = st)
    ∧ (∀ e, S.price (body.field "price") = .error e →
        (router.post S st user body oid now).1.status = 500 ∧
        (router.post S st user body oid now).2 = st) := by
  have hpost := @post_of_all_truthy S st user body oid now hn hd hc hp
  have h3 : (router.post S st user body oid now).1.status ≠ 201 →
      (router.post S st user body oid now).1.status = 500 ∧
      (router.post S st user body oid now).2 = st := by
    intro hne
    rw [hpost] at hne ⊢
    cases hcr : Product.create S st (body.field "name") (body.field "description")
        (body.field "price") (body.field "category") user oid now with
    | error e => simp [serverError]
    | ok r => rw [hcr] at hne; simp at hne
  refine ⟨?_, ?_, h3, ?_⟩
  · rw [hpost]
    cases hcr : Product.create S st (body.field "name") (body.field "description")
        (body.field "price") (body.field "category") user oid now with
    | error e => simp [serverError]
    | ok r => simp
  · intro a b t q ha hb hq ht hfresh
    rw [hpost, create_ok_of_accepted ha hb hq ht hfresh]
  · intro e he
    apply h3
    intro h201
    obtain ⟨p, st', hcr, _⟩ := post_created_spec h201
    have := (create_ok_spec hcr).2.2.1
    rw [he] at this
    cases this

/-- Witness of C7 (amended): the price -5 under a schema with `min: 0`. -/
theorem create_price_checked_by_schema_only_witness :
    truthy (Body.field (widgetPriced (-5)) "price") = true ∧
    (router.post minPriceSchema [] 1 (widgetPriced (-5)) 7 1000).1.status ≠ 400 :=
  ⟨by decide, (create_price_checked_by_schema_only minPriceSchema [] 1 (widgetPriced (-5)) 7 1000
    (by decide) (by decide) (by decide) (by decide)).1⟩

/-- C8. For every successful create (answer 201), the product returned is the
one appended to the collection; its owner is the authenticated requester, its
identifier and creation time are the ones assigned, and its name, description,
category and price are the values of the request as the schema stores them.
A `user` member in the body has no effect on the outcome. -/
theorem create_owner_is_requester (S : ProductSchema) (st : Store) (user : ObjectId)
    (body : Body) (oid : ObjectId) (now : Nat)
    (h : (router.post S st user body oid now).1.status = 201) :
    (∃ p : Product,
      router.post S st user body oid now =
        ({ status := 201, success := true, message := some "Product created successfully",
           data := .product p }, st ++ [p])
      ∧ p.user = user ∧ p._id = oid ∧ p.createdAt = now
      ∧ S.name (body.field "name") = .ok p.name
      ∧ S.description (body.field "description") = .ok p.description
      ∧ S.category (body.field "category") = .ok p.category
      ∧ S.price (body.field "price") = .ok p.price)
    ∧ ∀ v, router.post S st user (("user", v) :: body) oid now =
        router.post S st user body oid now := by
  constructor
  · obtain ⟨p, st', hcr, hpost⟩ := post_created_spec h
    obtain ⟨h1, h2, h3, h4, _, h6, h7, h8, h9⟩ := create_ok_spec hcr
    subst h9
    exact ⟨p, hpost, h7, h6, h8, h1, h2, h4, h3⟩
  · intro v
    obtain ⟨e1, e2, e3, e4⟩ := user_key_not_read body v
    unfold router.post
    simp only [e1, e2, e3, e4]

/-- Witness of C8: the widget created by user 1, with a `user` member naming
user 2 in the body. -/
theorem create_owner_is_requester_witness :
    (router.post plainSchema [] 1 (("user", .str "2") :: widget) 7 1000).1.status = 201 ∧
    ∃ p : Product,
      router.post plainSchema [] 1 (("user", .str "2") :: widget) 7 1000 =
        ({ status := 201, success := true, message := some "Product created successfully",
           data := .product p }, [] ++ [p])
      ∧ p.user = 1 :=
  ⟨by decide,
   let ⟨p, h1, h2, _⟩ :=
     (create_owner_is_requester plainSchema [] 1 (("user", .str "2") :: widget) 7 1000
       (by decide)).1
   ⟨p, h1, h2⟩⟩

/-- C9. Create/list round trip: when the requester owns no product in the
collection and create succeeds (answer 201), list for that requester answers
with exactly one entry, the record create returned. -/
theorem create_then_list_round_trip (S : ProductSchema) (st : Store) (user : ObjectId)
    (body : Body) (oid : ObjectId) (now : Nat)
    (hnone : ∀ p ∈ st, p.user ≠ user)
    (h : (router.post S st user body oid now).1.status = 201) :
    ∃ p : Product,
      (router.post S st user body oid now).1.data = .product p ∧
      (router.get (router.post S st user body oid now).2 user).1 =
        { status := 200, success := true, message := none, data := .products [p] } := by
  obtain ⟨p, st', hcr, hpost⟩ := post_created_spec h
  obtain ⟨_, _, _, _, _, _, huser, _, hst⟩ := create_ok_spec hcr
  refine ⟨p, by rw [hpost], ?_⟩
  rw [hpost, hst]
  have hfilter : Product.find (st ++ [p]) user = [p] := by
    unfold Product.find
    rw [List.filter_append]
    have h1 : st.filter (fun p => p.user == user) = [] := by
      rw [List.filter_eq_nil_iff]
      intro a ha
      simpa using hnone a ha
    rw [h1]
    simp [List.filter, huser]
  simp [router.get, hfilter, sortCreatedAtDesc]

/-- Witness of C9: the widget at 19.99, created by user 1 in a collection that
holds a product of user 2 only. -/
theorem create_then_list_round_trip_witness :
    (∀ p ∈ [otherProduct], p.user ≠ 1) ∧
    (router.post plainSchema [otherProduct] 1 widget 7 1000).1.status = 201 ∧
    ∃ p : Product,
      (router.post plainSchema [otherProduct] 1 widget 7 1000).1.data = .product p ∧
      (router.get (router.post plainSchema [otherProduct] 1 widget 7 1000).2 1).1 =
        { status := 200, success := true, message := none, data := .products [p] } :=
  ⟨by decide, by decide,
   create_then_list_round_trip plainSchema [otherProduct] 1 widget 7 1000 (by decide)
     (by decide)⟩

/-- C10. Update is partial. For a product `p` of the requester in a collection
with unique identifiers, addressed by its identifier (the route parameter
casts to it), update either fails with 500 and leaves the
collection unchanged, or answers 200 with a record `q` that is also the
product now stored under that identifier, every other document being as
before; in `q` the identifier is that of `p`, each of name, description,
category, price and creation time that is not a key of the body is as in `p`,
and each of name, description, category and price that is a key of the body is
the given value as the schema stores it. -/
theorem update_keeps_absent_fields (S : ProductSchema) (st : Store) (user id : ObjectId)
    (idParam : String) (body : Body) (p : Product) (hcast : castId S idParam = .ok id)
    (hu : UniqueIds st) (hp : p ∈ st) (hid : p._id = id) (ho : p.user = user) :
    ((router.put S st user idParam body).1.status ≠ 200 →
      (router.put S st user idParam body).1.status = 500 ∧ (router.put S st user idParam body).2 = st)
    ∧ ((router.put S st user idParam body).1.status = 200 →
      ∃ q : Product,
        (router.put S st user idParam body).1 =
          { status := 200, success := true, message := some "Product updated successfully",
            data := .product q }
        ∧ Product.findById (router.put S st user idParam body).2 id = some q
        ∧ (∀ r : Product, r._id ≠ id → (r ∈ (router.put S st user idParam body).2 ↔ r ∈ st))
        ∧ q._id = p._id
        ∧ (body.lookup "name" = none → q.name = p.name)
        ∧ (body.lookup "description" = none → q.description = p.description)
        ∧ (body.lookup "category" = none → q.category = p.category)
        ∧ (body.lookup "price" = none → q.price = p.price)
        ∧ (body.lookup "createdAt" = none → q.createdAt = p.createdAt)
        ∧ (∀ v, body.lookup "name" = some v → S.name v = .ok q.name)
        ∧ (∀ v, body.lookup "description" = some v → S.description v = .ok q.description)
        ∧ (∀ v, body.lookup "category" = some v → S.category v = .ok q.category)
        ∧ (∀ v, body.lookup "price" = some v → S.price v = .ok q.price)) := by
  have hput := @put_of_owned S st user id idParam body p hcast hu hp hid ho
  cases hup : applyUpdate S body p with
  | error e =>
    rw [hup] at hput
    rw [hput]
    refine ⟨fun _ => ⟨rfl, rfl⟩, fun h => ?_⟩
    simp [serverError] at h
  | ok q =>
    rw [hup] at hput
    rw [hput]
    refine ⟨fun h => absurd rfl h, fun _ => ?_⟩
    obtain ⟨hqid, hn, hd, hpr, hc, _, ht⟩ := applyUpdate_spec hup
    have hq : q._id = id := hqid.trans hid
    have hfound : (Product.findById st id).isSome = true := by
      rw [← hid, findById_of_mem hu hp]
      rfl
    exact ⟨q, rfl, findById_replaceById hq hfound,
      fun r hr => mem_replaceById_of_ne hq st r hr, hqid,
      fun h => (setPath_spec hn).1 h, fun h => (setPath_spec hd).1 h,
      fun h => (setPath_spec hc).1 h, fun h => (setPath_spec hpr).1 h,
      fun h => (setPath_spec ht).1 h,
      fun v h => (setPath_spec hn).2.2 v h rfl, fun v h => (setPath_spec hd).2.2 v h rfl,
      fun v h => (setPath_spec hc).2.2 v h rfl, fun v h => (setPath_spec hpr).2.2 v h rfl⟩

/-- Witness of C10: only `price = 25` in the body; the stored and returned
widget has the new price and its name, description, category and creation time
as before. -/
theorem update_keeps_absent_fields_witness :
    UniqueIds [otherProduct, storedWidget] ∧
    router.put plainSchema [otherProduct, storedWidget] 1 "7" [("price", .num 25)] =
      ({ status := 200, success := true, message := some "Product updated successfully",
         data := .product { storedWidget with price := 25 } },
       [otherProduct, { storedWidget with price := 25 }]) ∧
    ∃ q : Product,
      (router.put plainSchema [otherProduct, storedWidget] 1 "7" [("price", .num 25)]).1 =
        { status := 200, success := true, message := some "Product updated successfully",
          data := .product q }
      ∧ q.name = storedWidget.name :=
  ⟨by decide, by decide,
   let ⟨q, h1, _, _, _, h5, _⟩ :=
     (update_keeps_absent_fields plainSchema [otherProduct, storedWidget] 1 7 "7"
       [("price", .num 25)] storedWidget rfl (by decide) (by decide) rfl rfl).2 (by decide)
   ⟨q, h1, h5 (by decide)⟩⟩

/-- C2 at its failing input. User 1 updates the own widget with the body
`{user: "2"}`: the answer is 200 and the stored widget, its identifier
unchanged, is now owned by user 2. -/
theorem update_body_user_reassigns_owner :
    storedWidget.user = 1 ∧
    router.put plainSchema [storedWidget] 1 "7" [("user", .str "2")] =
      ({ status := 200, success := true, message := some "Product updated successfully",
         data := .product { storedWidget with user := 2 } },
       [{ storedWidget with user := 2 }]) := by
  decide

/-- C1 at its failing trace. User 1 creates the widget and then updates it with
the body `{user: "2"}`. In the collection reached, the product user 1 created
is listed for user 2 and not for user 1, and update and delete by user 2
against its identifier succeed. -/
theorem isolation_broken_after_reassignment :
    run plainSchema [.create 1 widget 7 1000, .update 1 "7" [("user", .str "2")]] =
      [{ storedWidget with user := 2 }]
    ∧ (router.get [{ storedWidget with user := 2 }] 2).1.data =
        .products [{ storedWidget with user := 2 }]
    ∧ (router.get [{ storedWidget with user := 2 }] 1).1.data = .products []
    ∧ router.put plainSchema [{ storedWidget with user := 2 }] 2 "7" [("price", .num 1)] =
      ({ status := 200, success := true, message := some "Product updated successfully",
         data := .product { storedWidget with user := 2, price := 1 } },
       [{ storedWidget with user := 2, price := 1 }])
    ∧ router.delete plainSchema [{ storedWidget with user := 2 }] 2 "7" =
      ({ status := 200, success := true, message := some "Product deleted successfully",
         data := .absent }, []) := by
  decide

/-- C11. For a product of the requester in a collection with unique
identifiers, addressed by its identifier (the route parameter casts to it):
delete answers 200 and touches no document with another identifier; afterwards
list for the requester contains no product with that identifier, and a second
delete of the same identifier answers 404 and leaves the collection as it
is. -/
theorem delete_then_gone (S : ProductSchema) (st : Store) (user : ObjectId)
    (idParam : String) (p : Product) (hcast : castId S idParam = .ok p._id)
    (hu : UniqueIds st) (hp : p ∈ st) (ho : p.user = user) :
    (router.delete S st user idParam).1 =
      { status := 200, success := true, message := some "Product deleted successfully",
        data := .absent }
    ∧ (∀ r : Product, r._id ≠ p._id → (r ∈ (router.delete S st user idParam).2 ↔ r ∈ st))
    ∧ (∃ ps : List Product,
        (router.get (router.delete S st user idParam).2 user).1 =
          { status := 200, success := true, message := none, data := .products ps }
        ∧ ∀ r ∈ ps, r._id ≠ p._id)
    ∧ router.delete S (router.delete S st user idParam).2 user idParam =
        ({ status := 404, success := false, message := some "Product not found",
           data := .absent }, (router.delete S st user idParam).2) := by
  rw [delete_of_owned hcast hu hp ho]
  have hgone := no_id_after_removeById hu p._id
  refine ⟨rfl, ?_, ?_, ?_⟩
  · intro r hr
    unfold removeById
    exact List.mem_eraseP_of_neg (by simpa using hr)
  · refine ⟨sortCreatedAtDesc (Product.find (removeById p._id st) user), rfl, ?_⟩
    intro r hr
    have hmem : r ∈ Product.find (removeById p._id st) user :=
      (List.perm_insertionSort newerFirst _).mem_iff.mp hr
    exact hgone r ((mem_find_iff _ _ _).mp hmem).1
  · rw [delete_of_castId hcast,
      findOne_eq_none_of_not_owned _ _ _ (fun r hr hid => absurd hid (hgone r hr))]
    rfl

/-- Witness of C11: user 1 deletes the stored widget. -/
theorem delete_then_gone_witness :
    UniqueIds [otherProduct, storedWidget] ∧
    (router.delete plainSchema [otherProduct, storedWidget] 1 "7").2 = [otherProduct] ∧
    router.delete plainSchema (router.delete plainSchema [otherProduct, storedWidget] 1 "7").2 1
        "7" =
      ({ status := 404, success := false, message := some "Product not found",
         data := .absent }, (router.delete plainSchema [otherProduct, storedWidget] 1 "7").2) :=
  ⟨by decide, by decide,
   (delete_then_gone plainSchema [otherProduct, storedWidget] 1 "7" storedWidget rfl
     (by decide) (by decide) rfl).2.2.2⟩

/-- C12 as stated fails: two failures of the store that differ only in the
text of their error give two different responses to list, each carrying the
text of its error as `message`. -/
theorem storage_failure_message_leaks :
    router.getTry (some "connect ECONNREFUSED 10.0.0.5:27017") [storedWidget] 1 =
      ({ status := 500, success := false,
         message := some "connect ECONNREFUSED 10.0.0.5:27017", data := .absent },
       [storedWidget])
    ∧ (router.getTry (some "connect ECONNREFUSED 10.0.0.5:27017") [storedWidget] 1).1 ≠
      (router.getTry (some "Topology is closed") [storedWidget] 1).1 := by
  decide

/-- C12, amended. When a store call fails with an error of message `msg`, each
product route answers 500 with `{success: false, message: msg}`, the message
being the text of the error itself, and leaves the collection unchanged: list
at its one call; create at `Product.create`, once the four fields are truthy;
update and delete at `findOne`, which is called once the route parameter is
cast to an identifier, and at the write once `findOne` has found the product.
Status and `success` do not depend on the text: when `findOne` fails, update
and delete answer 500 with `success: false` and leave the collection
unchanged for every route parameter. -/
theorem storage_failure_echoes_message (S : ProductSchema) (msg : String) (f2 : Option String)
    (st : Store) (user : ObjectId) (idParam : String) (body : Body) (oid : ObjectId)
    (now : Nat) :
    router.getTry (some msg) st user =
      ({ status := 500, success := false, message := some msg, data := .absent }, st)
    ∧ (truthy (body.field "name") = true → truthy (body.field "description") = true →
        truthy (body.field "price") = true → truthy (body.field "category") = true →
        router.postTry S (some msg) st user body oid now =
          ({ status := 500, success := false, message := some msg, data := .absent }, st))
    ∧ (∀ id : ObjectId, castId S idParam = .ok id →
        router.putTry S (some msg) f2 st user idParam body =
          ({ status := 500, success := false, message := some msg, data := .absent }, st))
    ∧ (∀ id : ObjectId, castId S idParam = .ok id →
        (Product.findOne st id user).isSome = true →
        router.putTry S none (some msg) st user idParam body =
          ({ status := 500, success := false, message := some msg, data := .absent }, st))
    ∧ (∀ id : ObjectId, castId S idParam = .ok id →
        router.deleteTry S (some msg) f2 st user idParam =
          ({ status := 500, success := false, message := some msg, data := .absent }, st))
    ∧ (∀ id : ObjectId, castId S idParam = .ok id →
        (Product.findOne st id user).isSome = true →
        router.deleteTry S none (some msg) st user idParam =
          ({ status := 500, success := false, message := some msg, data := .absent }, st))
    ∧ ((router.putTry S (some msg) f2 st user idParam body).1.status = 500 ∧
        (router.putTry S (some msg) f2 st user idParam body).1.success = false ∧
        (router.putTry S (some msg) f2 st user idParam body).2 = st)
    ∧ ((router.deleteTry S (some msg) f2 st user idParam).1.status = 500 ∧
        (router.deleteTry S (some msg) f2 st user idParam).1.success = false ∧
        (router.deleteTry S (some msg) f2 st user idParam).2 = st) := by
  refine ⟨rfl, ?_, ?_, ?_, ?_, ?_, ?_, ?_⟩
  · intro hn hd hp hc
    unfold router.postTry
    simp [hn, hd, hp, hc, storeCall, serverError]
  · intro id hcast
    rw [putTry_of_castId hcast]
    rfl
  · intro id hcast h
    rw [putTry_of_castId hcast]
    cases hf : Product.findOne st id user with
    | none => simp [hf] at h
    | some p => rfl
  · intro id hcast
    rw [deleteTry_of_castId hcast]
    rfl
  · intro id hcast h
    rw [deleteTry_of_castId hcast]
    cases hf : Product.findOne st id user with
    | none => simp [hf] at h
    | some p => rfl
  · cases hcast : castId S idParam with
    | error e =>
      unfold router.putTry
      rw [hcast]
      exact ⟨rfl, rfl, rfl⟩
    | ok id =>
      rw [putTry_of_castId hcast]
      exact ⟨rfl, rfl, rfl⟩
  · cases hcast : castId S idParam with
    | error e =>
      unfold router.deleteTry
      rw [hcast]
      exact ⟨rfl, rfl, rfl⟩
    | ok id =>
      rw [deleteTry_of_castId hcast]
      exact ⟨rfl, rfl, rfl⟩

/-- Witness of C12 (amended): the store fails at the write of an update of the
stored widget by its owner. -/
theorem storage_failure_echoes_message_witness :
    (Product.findOne [storedWidget] 7 1).isSome = true ∧
    router.putTry plainSchema none (some "Topology is closed") [storedWidget] 1 "7"
        [("price", .num 25)] =
      ({ status := 500, success := false, message := some "Topology is closed",
         data := .absent }, [storedWidget]) :=
  ⟨by decide,
   (storage_failure_echoes_message plainSchema "Topology is closed" none [storedWidget] 1 "7"
     [("price", .num 25)] 8 2000).2.2.2.1 7 rfl (by decide)⟩

/-- C13. Run without interleaving on a collection with unique identifiers, for
a route parameter that casts to the identifier `id`: the two steps of update
(find by id and owner, then update by id alone) give the same response and the
same collection as the single conditional write that matches on owner and id
and then mutates, and the two steps of delete give the same response and the
same collection as the single conditional write that matches on owner and id
and then removes. -/
theorem two_step_write_refines_conditional_write (S : ProductSchema) (st : Store)
    (user id : ObjectId) (idParam : String) (body : Body)
    (hcast : castId S idParam = .ok id) (hu : UniqueIds st) :
    router.put S st user idParam body = atomicUpdate S st user id body
    ∧ router.delete S st user idParam = atomicDelete st user id := by
  rw [put_of_castId hcast, delete_of_castId hcast]
  unfold atomicUpdate atomicDelete
  rw [← findOne_eq_find_ownedBy]
  cases hf : Product.findOne st id user with
  | none => exact ⟨rfl, rfl⟩
  | some p =>
    obtain ⟨hp, hid, ho⟩ := findOne_some_spec hf
    have hsame := id_test_eq_ownedBy hu hp hid ho
    have hby : Product.findById st id = some p := by
      rw [← hid]
      exact findById_of_mem hu hp
    constructor
    · unfold Product.findByIdAndUpdate
      rw [hby]
      cases hup : applyUpdate S body p with
      | error e => simp [hup, bind, Except.bind]
      | ok q =>
        simp only [hup, bind, Except.bind, pure, Except.pure]
        rw [replaceById_eq_replaceFirst, replaceFirst_congr q hsame]
    · simp only [Product.findByIdAndDelete, removeById]
      rw [eraseP_congr_mem hsame]

/-- Witness of C13: update and delete of the stored widget by its owner, in a
collection that also holds a product of another user. -/
theorem two_step_write_refines_conditional_write_witness :
    UniqueIds [otherProduct, storedWidget] ∧
    router.put plainSchema [otherProduct, storedWidget] 1 "7" [("price", .num 25)] =
      atomicUpdate plainSchema [otherProduct, storedWidget] 1 7 [("price", .num 25)] ∧
    router.delete plainSchema [otherProduct, storedWidget] 1 "7" =
      atomicDelete [otherProduct, storedWidget] 1 7 :=
  ⟨by decide,
   two_step_write_refines_conditional_write plainSchema [otherProduct, storedWidget] 1 7 "7"
     [("price", .num 25)] rfl (by decide)⟩

/-- C14. Client search in `filterAndSortProducts`, for every runtime, product
list, search term and sort option. The term trims to the empty string exactly
when all its characters are white space; in that case the displayed list holds
every product, each as often as the list does. Otherwise a product is
displayed exactly when it is in the list and the lower-cased search term
occurs in its lower-cased name, description or category, and it is displayed
as often as the list holds it. -/
theorem search_keeps_exactly_the_matches (js : JsRuntime) (s : ProductListState) :
    ((∀ c ∈ s.searchTerm.data, js.isWhiteSpace c = true) →
      (filterAndSortProducts js s).filteredProducts.Perm s.products)
    ∧ (¬ (∀ c ∈ s.searchTerm.data, js.isWhiteSpace c = true) →
      (∀ p : Product, p ∈ (filterAndSortProducts js s).filteredProducts ↔
        p ∈ s.products ∧
          ((js.toLowerCase s.searchTerm).data <:+: (js.toLowerCase p.name).data ∨
           (js.toLowerCase s.searchTerm).data <:+: (js.toLowerCase p.description).data ∨
           (js.toLowerCase s.searchTerm).data <:+: (js.toLowerCase p.category).data))
      ∧ (filterAndSortProducts js s).filteredProducts.Perm
          (s.products.filter (fun p =>
            decide ((js.toLowerCase s.searchTerm).data <:+: (js.toLowerCase p.name).data) ||
            decide ((js.toLowerCase s.searchTerm).data <:+: (js.toLowerCase p.description).data) ||
            decide ((js.toLowerCase s.searchTerm).data <:+: (js.toLowerCase p.category).data)))) := by
  have hperm := filtered_perm_found js s
  constructor
  · intro hws
    have ht : trim js s.searchTerm = [] := (trim_eq_nil_iff js s.searchTerm).mpr hws
    simpa [ht] using hperm
  · intro hws
    have ht : trim js s.searchTerm ≠ [] := fun h => hws ((trim_eq_nil_iff js s.searchTerm).mp h)
    simp only [ht, ne_eq, not_false_eq_true, if_true] at hperm
    refine ⟨fun p => ?_, hperm⟩
    rw [hperm.mem_iff, List.mem_filter]
    simp [matchesSearch, includes, or_assoc]

/-- Witness of C14: the term "WID" keeps the widget and drops the gadget. -/
theorem search_keeps_exactly_the_matches_witness :
    ¬ (∀ c ∈ "WID".data, asciiRuntime.isWhiteSpace c = true) ∧
    (filterAndSortProducts asciiRuntime
      { products := [storedWidget, blueGadget], filteredProducts := [], searchTerm := "WID",
        sortBy := "none" }).filteredProducts = [storedWidget] ∧
    ∀ p : Product,
      p ∈ (filterAndSortProducts asciiRuntime
        { products := [storedWidget, blueGadget], filteredProducts := [], searchTerm := "WID",
          sortBy := "none" }).filteredProducts ↔
      p ∈ [storedWidget, blueGadget] ∧
        ((asciiRuntime.toLowerCase "WID").data <:+: (asciiRuntime.toLowerCase p.name).data ∨
         (asciiRuntime.toLowerCase "WID").data <:+:
           (asciiRuntime.toLowerCase p.description).data ∨
         (asciiRuntime.toLowerCase "WID").data <:+:
           (asciiRuntime.toLowerCase p.category).data) :=
  ⟨by decide, by decide,
   ((search_keeps_exactly_the_matches asciiRuntime
      { products := [storedWidget, blueGadget], filteredProducts := [], searchTerm := "WID",
        sortBy := "none" }).2 (by decide)).1⟩

/-- C15. Client sorting in `filterAndSortProducts`, for every runtime, product
list, search term and sort option. The displayed list is a permutation of the
products the search keeps. It is ordered as the label of the option says:
`price-low` by non-decreasing price, `price-high` by non-increasing price,
`newest` by non-increasing creation time, `oldest` by non-decreasing creation
time, and `name` ascending by `localeCompare`, given that `localeCompare` is a
consistent comparator (total and transitive). An option that is none of the
five leaves the kept products in their order, and `products` itself is not
changed. -/
theorem sort_orders_as_labelled (js : JsRuntime) (s : ProductListState) :
    (filterAndSortProducts js s).filteredProducts.Perm
      (if trim js s.searchTerm ≠ [] then s.products.filter (matchesSearch js s.searchTerm)
       else s.products)
    ∧ (s.sortBy = "price-low" →
        (filterAndSortProducts js s).filteredProducts.Sorted (fun a b => a.price ≤ b.price))
    ∧ (s.sortBy = "price-high" →
        (filterAndSortProducts js s).filteredProducts.Sorted (fun a b => b.price ≤ a.price))
    ∧ (s.sortBy = "newest" →
        (filterAndSortProducts js s).filteredProducts.Sorted
          (fun a b => b.createdAt ≤ a.createdAt))
    ∧ (s.sortBy = "oldest" →
        (filterAndSortProducts js s).filteredProducts.Sorted
          (fun a b => a.createdAt ≤ b.createdAt))
    ∧ ((∀ a b, js.localeCompare a b ≤ 0 ∨ js.localeCompare b a ≤ 0) →
        (∀ a b c, js.localeCompare a b ≤ 0 → js.localeCompare b c ≤ 0 →
          js.localeCompare a c ≤ 0) →
        s.sortBy = "name" →
        (filterAndSortProducts js s).filteredProducts.Sorted
          (fun a b => js.localeCompare a.name b.name ≤ 0))
    ∧ (s.sortBy ≠ "name" → s.sortBy ≠ "price-low" → s.sortBy ≠ "price-high" →
        s.sortBy ≠ "newest" → s.sortBy ≠ "oldest" →
        (filterAndSortProducts js s).filteredProducts =
          (if trim js s.searchTerm ≠ [] then s.products.filter (matchesSearch js s.searchTerm)
           else s.products))
    ∧ (filterAndSortProducts js s).products = s.products := by
  refine ⟨filtered_perm_found js s, ?_, ?_, ?_, ?_, ?_, ?_, rfl⟩
  · intro h
    unfold filterAndSortProducts
    simp only [h]
    exact sortCopy_sorted_by (fun p : Product => p.price) _
      (fun a b => sub_nonpos) _
  · intro h
    unfold filterAndSortProducts
    simp only [h]
    exact sortCopy_sorted_by (fun p : Product => OrderDual.toDual p.price) _
      (fun a b => sub_nonpos) _
  · intro h
    unfold filterAndSortProducts
    simp only [h]
    exact sortCopy_sorted_by (fun p : Product => OrderDual.toDual p.createdAt) _
      (fun a b => by
        rw [sub_nonpos, Nat.cast_le]
        exact Iff.rfl) _
  · intro h
    unfold filterAndSortProducts
    simp only [h]
    exact sortCopy_sorted_by (fun p : Product => p.createdAt) _
      (fun a b => by rw [sub_nonpos, Nat.cast_le]) _
  · intro htotal htrans h
    unfold filterAndSortProducts
    simp only [h]
    exact sortCopy_sorted (fun a b : Product => js.localeCompare a.name b.name)
      (fun a b => htotal a.name b.name) (fun a b c => htrans a.name b.name c.name) _
  · intro h1 h2 h3 h4 h5
    unfold filterAndSortProducts
    simp only [h1, h2, h3, h4, h5, if_false]

/-- Witness of C15: sorting by name under the runtime of the examples, whose
`localeCompare` is total and transitive. -/
theorem sort_orders_as_labelled_witness :
    (∀ a b, asciiRuntime.localeCompare a b ≤ 0 ∨ asciiRuntime.localeCompare b a ≤ 0) ∧
    (filterAndSortProducts asciiRuntime
      { products := [storedWidget, blueGadget], filteredProducts := [], searchTerm := "",
        sortBy := "name" }).filteredProducts.Sorted
      (fun a b => asciiRuntime.localeCompare a.name b.name ≤ 0) :=
  ⟨fun a b => by
     rw [asciiRuntime_compare_iff, asciiRuntime_compare_iff]
     exact le_total a b,
   (sort_orders_as_labelled asciiRuntime
      { products := [storedWidget, blueGadget], filteredProducts := [], searchTerm := "",
        sortBy := "name" }).2.2.2.2.2.1
     (fun a b => by
       rw [asciiRuntime_compare_iff, asciiRuntime_compare_iff]
       exact le_total a b)
     (fun a b c => by
       rw [asciiRuntime_compare_iff, asciiRuntime_compare_iff, asciiRuntime_compare_iff]
       exact le_trans)
     rfl⟩

/-- C16. Client inventory statistics, for every product list: Total Value is
the sum of the prices; Average Price is 0 for the empty list and, for a list
that is not empty, Total Value divided by the number of products, the divisor
then not being zero, so that the quotient is always a finite number; Premium
Items is the number of products whose price is strictly greater than 100. -/
theorem statistics_of_products (products : List Product) :
    totalValue products = (products.map (fun p => p.price)).sum
    ∧ averagePrice [] = some 0
    ∧ (∃ v : ℚ, averagePrice products = some v)
    ∧ (products ≠ [] →
        (products.length : ℚ) ≠ 0 ∧
        averagePrice products = some (totalValue products / (products.length : ℚ)))
    ∧ premiumProducts products = products.countP (fun p => decide (100 < p.price)) := by
  have hne : products ≠ [] →
      (products.length : ℚ) ≠ 0 ∧
      averagePrice products = some (totalValue products / (products.length : ℚ)) := by
    intro h
    have hlen : 0 < products.length := List.length_pos.mpr h
    have hq : (products.length : ℚ) ≠ 0 := by
      exact_mod_cast (Nat.pos_iff_ne_zero.mp hlen)
    refine ⟨hq, ?_⟩
    unfold averagePrice divide
    simp only [gt_iff_lt, hlen, if_true, hq, if_false]
  refine ⟨totalValue_eq_sum products, rfl, ?_, hne, ?_⟩
  · by_cases h : products = []
    · subst h
      exact ⟨0, rfl⟩
    · exact ⟨_, (hne h).2⟩
  · unfold premiumProducts
    rw [List.countP_eq_length_filter]

/-- Witness of C16: two products, one of them above 100. -/
theorem statistics_of_products_witness :
    [storedWidget, blueGadget] ≠ [] ∧
    averagePrice [storedWidget, blueGadget] =
      some (totalValue [storedWidget, blueGadget] / (([storedWidget, blueGadget].length : ℕ) : ℚ))
    ∧ premiumProducts [storedWidget, blueGadget] = 1 :=
  ⟨by decide,
   ((statistics_of_products [storedWidget, blueGadget]).2.2.2.1 (by decide)).2,
   by decide⟩

/-- C17. Client signup validation in `handleSubmit`, for every form and every
`signup`: a signup request is made exactly when the password equals the
confirmation and has at least 6 characters (UTF-16 code units, as `length`
counts them), and it is then the one request with the name, email and password
of the form; when the passwords differ the error is "Passwords do not match"
and no request is made, whatever the length; when they are equal and the
password is shorter than 6 the error is "Password must be at least 6
characters long" and no request is made. -/
theorem signup_request_iff_valid (signup : String → String → String → SignupResult)
    (formData : SignupForm) :
    ((Signup.handleSubmit signup formData).requests ≠ [] ↔
      formData.password = formData.confirmPassword ∧ 6 ≤ jsLength formData.password)
    ∧ (formData.password = formData.confirmPassword → 6 ≤ jsLength formData.password →
        (Signup.handleSubmit signup formData).requests =
          [(formData.name, formData.email, formData.password)])
    ∧ (formData.password ≠ formData.confirmPassword →
        (Signup.handleSubmit signup formData).error = "Passwords do not match" ∧
        (Signup.handleSubmit signup formData).requests = [])
    ∧ (formData.password = formData.confirmPassword → jsLength formData.password < 6 →
        (Signup.handleSubmit signup formData).error =
          "Password must be at least 6 characters long" ∧
        (Signup.handleSubmit signup formData).requests = []) := by
  obtain ⟨n, e, pw, cpw⟩ := formData
  unfold Signup.handleSubmit
  simp only
  by_cases hpw : pw = cpw
  · subst hpw
    by_cases hlen : jsLength pw < 6
    · have h6 : ¬ 6 ≤ jsLength pw := Nat.not_le.mpr hlen
      simp [hlen, h6]
    · have h6 : 6 ≤ jsLength pw := Nat.not_lt.mp hlen
      by_cases hs : (signup n e pw).success = true <;> simp [hlen, h6, hs]
  · simp [hpw]

/-- Witness of C17: a five-character password, then mismatching passwords
that are both short, then a valid form. -/
theorem signup_request_iff_valid_witness :
    ((Signup.handleSubmit (fun _ _ _ => { success := true, message := "" })
        { name := "Ada", email := "ada@example.org", password := "12345",
          confirmPassword := "12345" }).error =
      "Password must be at least 6 characters long" ∧
     (Signup.handleSubmit (fun _ _ _ => { success := true, message := "" })
        { name := "Ada", email := "ada@example.org", password := "12345",
          confirmPassword := "12345" }).requests = [])
    ∧ (Signup.handleSubmit (fun _ _ _ => { success := true, message := "" })
        { name := "Ada", email := "ada@example.org", password := "123",
          confirmPassword := "124" }).error = "Passwords do not match"
    ∧ (Signup.handleSubmit (fun _ _ _ => { success := true, message := "" })
        { name := "Ada", email := "ada@example.org", password := "secret",
          confirmPassword := "secret" }).requests = [("Ada", "ada@example.org", "secret")] :=
  ⟨(signup_request_iff_valid (fun _ _ _ => { success := true, message := "" })
      { name := "Ada", email := "ada@example.org", password := "12345",
        confirmPassword := "12345" }).2.2.2 rfl (by decide),
   by decide, by decide⟩

end ProductManager
